import Mathlib

/-!
Shallow embedding of the mcpc project scaffolding generator (Rust sources:
src/lib.rs, src/main.rs, src/utils/dependency_checker.rs,
src/generators/{mod,python,typescript}.rs) together with theorems checking
the natural-language specification against it.

External effects are made explicit:
* the set of resolvable executables is an `Env : String → Bool`
  (modelling `which::which`);
* filesystem and child-process outcomes are supplied by a `World` record;
* every performed side effect is recorded as an `Event` in a trace, so
  statements about "which operations run, in which order" are equalities
  on traces.

Static template payloads (the byte-for-byte contents of generated files)
are excluded by the specification itself (§1); file-write events record
the target path only.  Terminal colouring (the `colored` crate) is elided:
print events carry the uncoloured text.
-/

namespace Mcpc

/-- Supported programming languages (src/lib.rs `enum Language`). -/
inductive Language where
  | Py
  | Python
  | Ts
  | Typescript
deriving DecidableEq

/-- Supported package manager tools (src/lib.rs `enum Tool`). -/
inductive Tool where
  | Uv
  | Pnpm
  | Yarn
  | Npm
deriving DecidableEq

/-- Get the default tool for a language (src/lib.rs `get_default_tool`). -/
def get_default_tool : Language → Tool
  | Language.Python | Language.Py => Tool.Uv
  | Language.Typescript | Language.Ts => Tool.Pnpm

/-- A missing external dependency (src/utils/dependency_checker.rs `struct Dependency`). -/
structure Dependency where
  name : String
  install_instructions : Option String
deriving DecidableEq

/-- The host environment for executable resolution: `env x = true` iff
`which(x)` succeeds (the executable `x` resolves on PATH). -/
abbrev Env := String → Bool

/-- Check if all required dependencies are installed based on the language and
tool (src/utils/dependency_checker.rs `check_dependencies`).  Each failed
probe pushes one `Dependency` onto `missing_deps`, in source order. -/
def check_dependencies (env : Env) (language : Language) (tool : Tool) :
    Except (List Dependency) Unit :=
  let missing_deps : List Dependency := []
  -- Check Git
  let missing_deps :=
    if env "git" = false then
      missing_deps ++ [⟨"Git", some "https://git-scm.com/downloads"⟩]
    else missing_deps
  let missing_deps :=
    match language with
    | Language.Python | Language.Py =>
      -- Check Python
      let missing_deps :=
        if env "python" = false ∧ env "python3" = false then
          missing_deps ++ [⟨"Python 3.10+", some "https://www.python.org/downloads/"⟩]
        else missing_deps
      -- Check UV if tool is UV
      if tool = Tool.Uv ∧ env "uv" = false then
        missing_deps ++ [⟨"uv", some "pip install uv"⟩]
      else missing_deps
    | Language.Typescript | Language.Ts =>
      -- Check Node.js
      let missing_deps :=
        if env "node" = false then
          missing_deps ++ [⟨"Node.js 18+", some "https://nodejs.org/"⟩]
        else missing_deps
      -- Check package manager
      match tool with
      | Tool.Pnpm =>
        if env "pnpm" = false then
          missing_deps ++ [⟨"pnpm", some "npm install -g pnpm"⟩]
        else missing_deps
      | Tool.Yarn =>
        if env "yarn" = false then
          missing_deps ++ [⟨"yarn", some "npm install -g yarn"⟩]
        else missing_deps
      | Tool.Npm =>
        if env "npm" = false then
          missing_deps ++ [⟨"npm", some "It comes with Node.js, please install Node.js"⟩]
        else missing_deps
      | _ => missing_deps
  if missing_deps.isEmpty then Except.ok () else Except.error missing_deps

/-! ### Spec-side characterization of the dependency check

The following definitions follow the words of the specification (§4.1,
"Result guarantee" and "Ordering of the returned list": version control
first, then language runtime, then tool; `Ok` iff every required
executable resolves).  They are compared with `check_dependencies` above. -/

/-- Spec-side: the version-control segment of the missing list. -/
def vcMissing (env : Env) : List Dependency :=
  if env "git" then [] else
    [⟨"Git", some "https://git-scm.com/downloads"⟩]

/-- Spec-side: the language-runtime segment of the missing list. -/
def runtimeMissing (env : Env) : Language → List Dependency
  | Language.Python | Language.Py =>
    if env "python" || env "python3" then [] else
      [⟨"Python 3.10+", some "https://www.python.org/downloads/"⟩]
  | Language.Typescript | Language.Ts =>
    if env "node" then [] else
      [⟨"Node.js 18+", some "https://nodejs.org/"⟩]

/-- Spec-side: the tool segment of the missing list (Python: uv only when the
tool is Uv; TypeScript: the executable matching the selected manager, with
Uv requiring no check). -/
def toolMissing (env : Env) : Language → Tool → List Dependency
  | Language.Python, Tool.Uv | Language.Py, Tool.Uv =>
    if env "uv" then [] else
      [⟨"uv", some "pip install uv"⟩]
  | Language.Python, _ | Language.Py, _ => []
  | Language.Typescript, Tool.Pnpm | Language.Ts, Tool.Pnpm =>
    if env "pnpm" then [] else
      [⟨"pnpm", some "npm install -g pnpm"⟩]
  | Language.Typescript, Tool.Yarn | Language.Ts, Tool.Yarn =>
    if env "yarn" then [] else
      [⟨"yarn", some "npm install -g yarn"⟩]
  | Language.Typescript, Tool.Npm | Language.Ts, Tool.Npm =>
    if env "npm" then [] else
      [⟨"npm", some "It comes with Node.js, please install Node.js"⟩]
  | Language.Typescript, Tool.Uv | Language.Ts, Tool.Uv => []

/-- Spec-side: the full ordered missing list — version control first, then
language runtime, then tool. -/
def missingOrdered (env : Env) (language : Language) (tool : Tool) : List Dependency :=
  vcMissing env ++ runtimeMissing env language ++ toolMissing env language tool

/-- Spec-side: every required executable resolves. -/
def requiredOk (env : Env) (language : Language) (tool : Tool) : Prop :=
  env "git" = true ∧
  (match language with
   | Language.Python | Language.Py =>
     (env "python" = true ∨ env "python3" = true) ∧
     (tool = Tool.Uv → env "uv" = true)
   | Language.Typescript | Language.Ts =>
     env "node" = true ∧
     (match tool with
      | Tool.Pnpm => env "pnpm" = true
      | Tool.Yarn => env "yarn" = true
      | Tool.Npm => env "npm" = true
      | Tool.Uv => True))

/-! ### Effects model for the generators

The generators perform filesystem operations and spawn child processes.
A `World` supplies the outcome of each such operation; an `Event` records
that an operation (or console print) happened.  Each embedded function
returns its `Result` value together with the ordered trace of events it
produced. -/

/-- Outcome of `std::process::Command::output()`: either the spawn itself
failed (`launchFailure`, the `Err` case of the returned `io::Result`), or
the child ran to completion (`exited`), carrying `status.success()` and the
captured stderr. -/
inductive SpawnResult where
  | launchFailure (msg : String)
  | exited (success : Bool) (stderrText : String)
deriving DecidableEq

/-- Returns `true` iff the `io::Result` of `output()` is `Ok` (the child was
launched, whatever its exit status). -/
def SpawnResult.is_ok : SpawnResult → Bool
  | SpawnResult.launchFailure _ => false
  | SpawnResult.exited _ _ => true

/-- One observable side effect of a generation run. -/
inductive Event where
  | createDir (path : String)
  | createDirAll (path : String)
  | writeFile (path : String)
  | setPermissions (path : String)
  | spawn (cmd : String) (args : List String) (cwd : String)
  | printOut (msg : String)
  | printErr (msg : String)
deriving DecidableEq

/-- Holds (`true`) for events that touch the filesystem or spawn a process (the
side effects a `Generator` performs), `false` for console output. -/
def Event.isSideEffect : Event → Bool
  | Event.printOut _ | Event.printErr _ => false
  | _ => true

/-- Holds exactly for process-spawn events. -/
def Event.isSpawn : Event → Bool
  | Event.spawn _ _ _ => true
  | _ => false

/-- Holds exactly for file-write events. -/
def Event.isWriteFile : Event → Bool
  | Event.writeFile _ => true
  | _ => false

/-- Outcomes of all external operations during one run: filesystem calls
(`fs::create_dir`, `fs::create_dir_all`, `fs::write`, the permission bit
on `server.py`) keyed by path, and `Command::output()` keyed by
command, argument list and working directory. -/
structure World where
  create_dir : String → Except String Unit
  create_dir_all : String → Except String Unit
  write : String → Except String Unit
  set_permissions : String → Except String Unit
  run : String → List String → String → SpawnResult

/-- Result of an embedded fallible step: the `anyhow::Result<()>` value
(errors as their user-facing message) together with the event trace. -/
abbrev Res := Except String Unit × List Event

deriving instance DecidableEq for Except

/-- Sequencing of two fallible steps, as Rust `?` composes them: on success
the traces concatenate, on error the second step never runs. -/
def seq (a : Res) (b : Unit → Res) : Res :=
  match a with
  | (Except.ok _, es) => match b () with
    | (r, es2) => (r, es ++ es2)
  | (Except.error e, es) => (Except.error e, es)

/-- First-error sequencing of a pipeline of steps: each step runs only if
every earlier step succeeded; the trace is the concatenation of the traces
of the steps that ran. -/
def runPipeline : List (Unit → Res) → Res
  | [] => (Except.ok (), [])
  | f :: fs =>
    match f () with
    | (Except.ok _, es) =>
      match runPipeline fs with
      | (r, es2) => (r, es ++ es2)
    | (Except.error e, es) => (Except.error e, es)

/-- Embeds `fs::create_dir` followed by `.context(ctx)?`. -/
def fsCreateDir (w : World) (path ctx : String) : Res :=
  match w.create_dir path with
  | Except.ok _ => (Except.ok (), [Event.createDir path])
  | Except.error e => (Except.error (ctx ++ ": " ++ e), [Event.createDir path])

/-- Embeds `fs::create_dir_all` followed by `.context(ctx)?`. -/
def fsCreateDirAll (w : World) (path ctx : String) : Res :=
  match w.create_dir_all path with
  | Except.ok _ => (Except.ok (), [Event.createDirAll path])
  | Except.error e => (Except.error (ctx ++ ": " ++ e), [Event.createDirAll path])

/-- Embeds `fs::write` followed by `.context(ctx)?` (template payload elided,
see the header comment). -/
def fsWrite (w : World) (path ctx : String) : Res :=
  match w.write path with
  | Except.ok _ => (Except.ok (), [Event.writeFile path])
  | Except.error e => (Except.error (ctx ++ ": " ++ e), [Event.writeFile path])

/-! ### Python generator (src/generators/python.rs) -/

/-- Embeds `struct PythonGenerator` — the stored tool field is named `_tool` in the
source because no method reads it. -/
structure PythonGenerator where
  project_name : String
  _tool : Tool
  project_path : String

/-- Embeds `PythonGenerator::new` (`Generator::new` impl): pure construction; the
target path is the project name read as a relative path. -/
def PythonGenerator.new (project_name : String) (tool : Tool) : PythonGenerator :=
  { project_name := project_name, _tool := tool, project_path := project_name }

/-- Embeds `PythonGenerator::create_directories`: creates the main directory only
(no subdirectories). -/
def PythonGenerator.create_directories (self : PythonGenerator) (w : World) : Res :=
  fsCreateDir w self.project_path
    ("Failed to create project directory: " ++ self.project_path)

/-- Embeds `PythonGenerator::create_pyproject_toml`. -/
def PythonGenerator.create_pyproject_toml (self : PythonGenerator) (w : World) : Res :=
  fsWrite w (self.project_path ++ "/pyproject.toml") "Failed to create pyproject.toml"

/-- Embeds `PythonGenerator::create_requirements_txt`. -/
def PythonGenerator.create_requirements_txt (self : PythonGenerator) (w : World) : Res :=
  fsWrite w (self.project_path ++ "/requirements.txt") "Failed to create requirements.txt"

/-- Embeds `PythonGenerator::create_gitignore`. -/
def PythonGenerator.create_gitignore (self : PythonGenerator) (w : World) : Res :=
  fsWrite w (self.project_path ++ "/.gitignore") "Failed to create .gitignore"

/-- Embeds `PythonGenerator::create_server_file`: writes `server.py`, then (on unix)
reads its metadata and sets mode 0o755; a failure of the permission step
surfaces as an error with its own context. -/
def PythonGenerator.create_server_file (self : PythonGenerator) (w : World) : Res :=
  seq (fsWrite w (self.project_path ++ "/server.py") "Failed to create server.py")
    (fun _ =>
      match w.set_permissions (self.project_path ++ "/server.py") with
      | Except.ok _ =>
        (Except.ok (), [Event.setPermissions (self.project_path ++ "/server.py")])
      | Except.error e =>
        (Except.error ("Failed to make server.py executable: " ++ e),
         [Event.setPermissions (self.project_path ++ "/server.py")]))

/-- Embeds `PythonGenerator::create_readme`. -/
def PythonGenerator.create_readme (self : PythonGenerator) (w : World) : Res :=
  fsWrite w (self.project_path ++ "/README.md") "Failed to create README.md"

/-- Embeds `PythonGenerator::create_files`: the five scaffold files, in source
order. -/
def PythonGenerator.create_files (self : PythonGenerator) (w : World) : Res :=
  seq (self.create_pyproject_toml w) (fun _ =>
  seq (self.create_requirements_txt w) (fun _ =>
  seq (self.create_gitignore w) (fun _ =>
  seq (self.create_server_file w) (fun _ =>
  self.create_readme w))))

/-- The fixed block of next-step instructions `PythonGenerator::init_package_manager`
always prints before returning. -/
def pyNextStepsPrints : List Event :=
  [Event.printOut "Success: 📦 Python virtual environment created!",
   Event.printOut "Next steps:",
   Event.printOut "1. Activate the virtual environment:",
   Event.printOut "   $  source .venv/bin/activate  # On Windows: .venv\\Scripts\\activate",
   Event.printOut "2. Install dependencies:",
   Event.printOut "   $  uv pip install -r requirements.txt",
   Event.printOut "3. Run the server in test mode to verify it\x27s working:",
   Event.printOut "   $  python server.py --test",
   Event.printOut "Note:",
   Event.printOut "If you run the server without --test, it will appear to hang. This is normal!",
   Event.printOut "The server is waiting for MCP protocol messages on stdin and is designed to be",
   Event.printOut "used with Claude for Desktop or other MCP clients.",
   Event.printOut "See the README.md for more information on how to set up with Claude for Desktop."]

/-- Embeds `PythonGenerator::init_package_manager`: runs `uv venv` in the project
directory.  The `io::Result` of `output()` is unwrapped with
`.context(..)?`, so a launch failure returns `Err`; a non-zero exit status
only prints a warning and the function still returns `Ok`. -/
def PythonGenerator.init_package_manager (self : PythonGenerator) (w : World) : Res :=
  let es0 := [Event.printOut "📦 Creating Python virtual environment with uv...",
              Event.spawn "uv" ["venv"] self.project_path]
  match w.run "uv" ["venv"] self.project_path with
  | SpawnResult.launchFailure e =>
    (Except.error ("Failed to create virtual environment with uv venv: " ++ e), es0)
  | SpawnResult.exited success stderrText =>
    if success then
      (Except.ok (),
        es0 ++ [Event.printOut "✅ Virtual environment created successfully"]
            ++ pyNextStepsPrints)
    else
      (Except.ok (),
        es0 ++ [Event.printErr ("⚠️ Warning: Failed to create virtual environment: "
                  ++ stderrText),
                Event.printErr "Please run \x27uv venv\x27 manually in the project directory"]
            ++ pyNextStepsPrints)

/-- Embeds `PythonGenerator::init_git`: runs `git init` in the project directory.
As with the package manager, only the `io::Result` is checked (via
`.context(..)?`): a launch failure returns `Err`, while the exit status of
the `git` process is never inspected. -/
def PythonGenerator.init_git (self : PythonGenerator) (w : World) : Res :=
  match w.run "git" ["init"] self.project_path with
  | SpawnResult.launchFailure e =>
    (Except.error ("Failed to initialize git repository: " ++ e),
     [Event.spawn "git" ["init"] self.project_path])
  | SpawnResult.exited _ _ =>
    (Except.ok (), [Event.spawn "git" ["init"] self.project_path])

/-- Embeds `PythonGenerator::generate`: the four pipeline steps joined by `?`. -/
def PythonGenerator.generate (self : PythonGenerator) (w : World) : Res :=
  seq (self.create_directories w) (fun _ =>
  seq (self.create_files w) (fun _ =>
  seq (self.init_package_manager w) (fun _ =>
  self.init_git w)))


/-! ### TypeScript generator (src/generators/typescript.rs) -/

/-- Embeds `struct TypeScriptGenerator`. -/
structure TypeScriptGenerator where
  project_name : String
  tool : Tool
  project_path : String

/-- Embeds `TypeScriptGenerator::new` (`Generator::new` impl). -/
def TypeScriptGenerator.new (project_name : String) (tool : Tool) : TypeScriptGenerator :=
  { project_name := project_name, tool := tool, project_path := project_name }

/-- Embeds `TypeScriptGenerator::create_directories`: the main directory, then
the `src` and `build` subdirectories (via `fs::create_dir_all`). -/
def TypeScriptGenerator.create_directories (self : TypeScriptGenerator) (w : World) : Res :=
  seq (fsCreateDir w self.project_path
        ("Failed to create project directory: " ++ self.project_path)) (fun _ =>
  seq (fsCreateDirAll w (self.project_path ++ "/src") "Failed to create directory: src")
    (fun _ =>
  fsCreateDirAll w (self.project_path ++ "/build") "Failed to create directory: build"))

/-- Embeds `TypeScriptGenerator::create_package_json`. -/
def TypeScriptGenerator.create_package_json (self : TypeScriptGenerator) (w : World) : Res :=
  fsWrite w (self.project_path ++ "/package.json") "Failed to create package.json"

/-- Embeds `TypeScriptGenerator::create_tsconfig_json`. -/
def TypeScriptGenerator.create_tsconfig_json (self : TypeScriptGenerator) (w : World) : Res :=
  fsWrite w (self.project_path ++ "/tsconfig.json") "Failed to create tsconfig.json"

/-- Embeds `TypeScriptGenerator::create_gitignore`. -/
def TypeScriptGenerator.create_gitignore (self : TypeScriptGenerator) (w : World) : Res :=
  fsWrite w (self.project_path ++ "/.gitignore") "Failed to create .gitignore"

/-- Embeds `TypeScriptGenerator::create_prettier_config`: `.prettierrc` then
`.prettierignore`. -/
def TypeScriptGenerator.create_prettier_config (self : TypeScriptGenerator) (w : World) : Res :=
  seq (fsWrite w (self.project_path ++ "/.prettierrc") "Failed to create .prettierrc")
    (fun _ =>
  fsWrite w (self.project_path ++ "/.prettierignore") "Failed to create .prettierignore")

/-- Embeds `TypeScriptGenerator::create_server_file`: writes `src/index.ts`. -/
def TypeScriptGenerator.create_server_file (self : TypeScriptGenerator) (w : World) : Res :=
  fsWrite w (self.project_path ++ "/src/index.ts") "Failed to create src/index.ts"

/-- Embeds `TypeScriptGenerator::create_readme`. -/
def TypeScriptGenerator.create_readme (self : TypeScriptGenerator) (w : World) : Res :=
  fsWrite w (self.project_path ++ "/README.md") "Failed to create README.md"

/-- Embeds `TypeScriptGenerator::create_files`, in source order. -/
def TypeScriptGenerator.create_files (self : TypeScriptGenerator) (w : World) : Res :=
  seq (self.create_package_json w) (fun _ =>
  seq (self.create_tsconfig_json w) (fun _ =>
  seq (self.create_gitignore w) (fun _ =>
  seq (self.create_prettier_config w) (fun _ =>
  seq (self.create_server_file w) (fun _ =>
  self.create_readme w)))))

/-- The package-manager command resolved from the tool
(`Tool::Pnpm => "pnpm"`, `Tool::Yarn => "yarn"`, `Tool::Npm => "npm"`,
`_ => "npm"`). -/
def tsPackageManagerCmd : Tool → String
  | Tool.Pnpm => "pnpm"
  | Tool.Yarn => "yarn"
  | Tool.Npm => "npm"
  | _ => "npm"

/-- Argument list of the runtime-dependency invocation
(`Tool::Yarn` uses `add`, every other tool `install`). -/
def tsRuntimeDepsArgs : Tool → List String
  | Tool.Yarn => ["add", "@modelcontextprotocol/sdk", "zod"]
  | _ => ["install", "@modelcontextprotocol/sdk", "zod"]

/-- Argument list of the development-dependency invocation
(`Tool::Yarn`: `add --dev`; `Tool::Pnpm`: `install -D`;
every other tool: `install --save-dev`). -/
def tsDevDepsArgs : Tool → List String
  | Tool.Yarn => ["add", "--dev", "@types/node", "typescript"]
  | Tool.Pnpm => ["install", "-D", "@types/node", "typescript"]
  | _ => ["install", "--save-dev", "@types/node", "typescript"]

/-- Embeds `TypeScriptGenerator::init_package_manager`: two invocations of the
resolved package manager (runtime deps, then dev deps).  Each `io::Result`
is inspected with `if let Err(..)` — a launch failure only prints warnings.
The exit status of either child is never read; `is_ok()` on the
`io::Result` decides whether the unqualified success message prints.  The
function always returns `Ok`. -/
def TypeScriptGenerator.init_package_manager (self : TypeScriptGenerator) (w : World) : Res :=
  let cmd := tsPackageManagerCmd self.tool
  let runtime_deps_result := w.run cmd (tsRuntimeDepsArgs self.tool) self.project_path
  let dev_deps_result := w.run cmd (tsDevDepsArgs self.tool) self.project_path
  (Except.ok (),
    [Event.printOut ("📦 Installing dependencies with " ++ cmd ++ "..."),
     Event.printOut "Installing runtime dependencies...",
     Event.spawn cmd (tsRuntimeDepsArgs self.tool) self.project_path]
    ++ (match runtime_deps_result with
        | SpawnResult.launchFailure e =>
          [Event.printErr ("⚠️ Warning: Failed to install runtime dependencies: " ++ e),
           Event.printErr ("Please run \x27" ++ cmd
             ++ " install @modelcontextprotocol/sdk zod\x27 manually")]
        | SpawnResult.exited _ _ => [])
    ++ [Event.printOut "Installing development dependencies...",
        Event.spawn cmd (tsDevDepsArgs self.tool) self.project_path]
    ++ (match dev_deps_result with
        | SpawnResult.launchFailure e =>
          [Event.printErr ("⚠️ Warning: Failed to install development dependencies: " ++ e),
           Event.printErr ("Please run \x27" ++ cmd
             ++ " install --save-dev @types/node typescript\x27 manually")]
        | SpawnResult.exited _ _ => [])
    ++ (if runtime_deps_result.is_ok && dev_deps_result.is_ok then
          [Event.printOut "✅ Dependencies installed successfully"]
        else
          [Event.printErr "⚠️ Some dependencies may not have been installed properly.",
           Event.printErr "Please check the output above and install any missing dependencies manually."]))

/-- Embeds `TypeScriptGenerator::init_git`: identical handling to the Python
variant — launch failure returns `Err` via `.context(..)?`, the exit status
is never inspected. -/
def TypeScriptGenerator.init_git (self : TypeScriptGenerator) (w : World) : Res :=
  match w.run "git" ["init"] self.project_path with
  | SpawnResult.launchFailure e =>
    (Except.error ("Failed to initialize git repository: " ++ e),
     [Event.spawn "git" ["init"] self.project_path])
  | SpawnResult.exited _ _ =>
    (Except.ok (), [Event.spawn "git" ["init"] self.project_path])

/-- Embeds `TypeScriptGenerator::generate`: the four pipeline steps joined by
`?`. -/
def TypeScriptGenerator.generate (self : TypeScriptGenerator) (w : World) : Res :=
  seq (self.create_directories w) (fun _ =>
  seq (self.create_files w) (fun _ =>
  seq (self.init_package_manager w) (fun _ =>
  self.init_git w)))

/-! ### Orchestrator (src/main.rs) -/

/-- Parsed CLI configuration (src/lib.rs `struct Cli`): project name,
language (clap default: typescript), optional tool. -/
structure Cli where
  project_name : String
  language : Language
  tool : Option Tool

/-- Error report printed for missing dependencies (the loop in `main`). -/
def depsErrorEvents (deps : List Dependency) : List Event :=
  Event.printErr "❌ Missing required dependencies:" ::
  deps.flatMap (fun d =>
    [Event.printErr ("  - " ++ d.name)] ++
    (match d.install_instructions with
     | some i => [Event.printErr ("    Install with: " ++ i)]
     | none => []))

/-- The success report `main` prints after a generator run returns `Ok`. -/
def mainSuccessEvents (language : Language) (tool : Tool) (name : String) : List Event :=
  [Event.printOut ("✅ Successfully created MCP server project: " ++ name),
   Event.printOut ("📁 Project location: " ++ name),
   Event.printOut "🚀 Next steps:",
   Event.printOut ("  cd " ++ name)]
  ++ (match language with
      | Language.Python | Language.Py =>
        [Event.printOut "  # Activate virtual environment",
         Event.printOut "  source .venv/bin/activate  # On Windows: .venv\\Scripts\\activate",
         Event.printOut "  # Install dependencies",
         Event.printOut "  uv pip install -r requirements.txt",
         Event.printOut "  # Run the server",
         Event.printOut "  python server.py"]
      | Language.Typescript | Language.Ts =>
        [Event.printOut "  # Install dependencies"]
        ++ (match tool with
            | Tool.Pnpm => [Event.printOut "  pnpm install"]
            | Tool.Yarn => [Event.printOut "  yarn"]
            | Tool.Npm => [Event.printOut "  npm install"]
            | _ => [])
        ++ [Event.printOut "  # Run the server"]
        ++ (match tool with
            | Tool.Pnpm => [Event.printOut "  pnpm dev"]
            | Tool.Yarn => [Event.printOut "  yarn dev"]
            | Tool.Npm => [Event.printOut "  npm run dev"]
            | _ => []))

/-- Embeds `fn main()`: resolve the tool, gate on the dependency check, reject
an existing target path, dispatch to the matching generator, report.  The
returned `Nat` is the process exit code (`process::exit(1)` or falling off
the end of `main` with code 0); `path_exists` is the result of the
`project_path.exists()` probe. -/
def main (cli : Cli) (env : Env) (path_exists : Bool) (w : World) : Nat × List Event :=
  let tool := cli.tool.getD (get_default_tool cli.language)
  match check_dependencies env cli.language tool with
  | Except.error missing_deps => (1, depsErrorEvents missing_deps)
  | Except.ok _ =>
    if path_exists then
      (1, [Event.printErr ("❌ Directory \x27" ++ cli.project_name
            ++ "\x27 already exists. Please choose another project name.")])
    else
      let result :=
        match cli.language with
        | Language.Python | Language.Py =>
          (PythonGenerator.new cli.project_name tool).generate w
        | Language.Typescript | Language.Ts =>
          (TypeScriptGenerator.new cli.project_name tool).generate w
      match result with
      | (Except.ok _, es) =>
        (0, es ++ mainSuccessEvents cli.language tool cli.project_name)
      | (Except.error e, es) =>
        (1, es ++ [Event.printErr ("❌ Failed to create project: " ++ e)])

/-- The tool `main` resolves before anything else: the explicit CLI tool, or
the per-language default. -/
def resolvedTool (cli : Cli) : Tool :=
  cli.tool.getD (get_default_tool cli.language)

/-- The generator run `main` dispatches to for its language. -/
def generatorResult (cli : Cli) (tool : Tool) (w : World) : Res :=
  match cli.language with
  | Language.Python | Language.Py =>
    (PythonGenerator.new cli.project_name tool).generate w
  | Language.Typescript | Language.Ts =>
    (TypeScriptGenerator.new cli.project_name tool).generate w

/-- The missing list carried by an `Err` result (empty for `Ok`). -/
def errorList : Except (List Dependency) Unit → List Dependency
  | Except.ok _ => []
  | Except.error l => l

/-- A world in which every operation succeeds. -/
def allOkWorld : World :=
  { create_dir := fun _ => Except.ok (),
    create_dir_all := fun _ => Except.ok (),
    write := fun _ => Except.ok (),
    set_permissions := fun _ => Except.ok (),
    run := fun _ _ _ => SpawnResult.exited true "" }

/-- A world in which every operation succeeds except that spawning `uv`
fails (e.g. the binary disappeared between the preflight check and the
run). -/
def uvLaunchFailWorld : World :=
  { create_dir := fun _ => Except.ok (),
    create_dir_all := fun _ => Except.ok (),
    write := fun _ => Except.ok (),
    set_permissions := fun _ => Except.ok (),
    run := fun cmd _ _ =>
      if cmd = "uv" then SpawnResult.launchFailure "No such file or directory"
      else SpawnResult.exited true "" }

/-- A world in which every operation succeeds except that spawning `git`
fails. -/
def gitLaunchFailWorld : World :=
  { create_dir := fun _ => Except.ok (),
    create_dir_all := fun _ => Except.ok (),
    write := fun _ => Except.ok (),
    set_permissions := fun _ => Except.ok (),
    run := fun cmd _ _ =>
      if cmd = "git" then SpawnResult.launchFailure "No such file or directory"
      else SpawnResult.exited true "" }


/-! ## Theorems -/

/-- Shared helper: `check_dependencies` returns exactly the spec-ordered
missing list when it is non-empty, and `Ok` when it is empty. -/
theorem check_dependencies_eq_missingOrdered (env : Env) (language : Language)
    (tool : Tool) :
    check_dependencies env language tool =
      (if (missingOrdered env language tool).isEmpty then Except.ok ()
       else Except.error (missingOrdered env language tool)) := by
  cases language <;> cases tool <;>
    cases hg : env "git" <;>
    first
    | (cases hp : env "python" <;> cases hp3 : env "python3" <;> cases hu : env "uv" <;>
        (simp [check_dependencies, missingOrdered, vcMissing, runtimeMissing,
          toolMissing, hg, hp, hp3, hu]; done))
    | (cases hn : env "node" <;> cases hpm : env "pnpm" <;> cases hy : env "yarn" <;>
        cases hnpm : env "npm" <;>
        (simp [check_dependencies, missingOrdered, vcMissing, runtimeMissing,
          toolMissing, hg, hn, hpm, hy, hnpm]; done))

/-- C6: `get_default_tool` is a pure, deterministic, total function on
`Language`: every Python-variant value maps to `Uv` and every
TypeScript-variant value maps to `Pnpm`; the four conjuncts cover every
constructor, so no input is unmapped. -/
theorem get_default_tool_total_mapping :
    get_default_tool Language.Python = Tool.Uv ∧
    get_default_tool Language.Py = Tool.Uv ∧
    get_default_tool Language.Typescript = Tool.Pnpm ∧
    get_default_tool Language.Ts = Tool.Pnpm :=
  ⟨rfl, rfl, rfl, rfl⟩

/-- C9: the Python generator never reads the tool it was constructed with —
for any two tools, every pipeline step (and the whole `generate`) behaves
identically, result and event trace alike. -/
theorem python_generator_ignores_tool (name : String) (t1 t2 : Tool) (w : World) :
    (PythonGenerator.new name t1).create_directories w
      = (PythonGenerator.new name t2).create_directories w ∧
    (PythonGenerator.new name t1).create_files w
      = (PythonGenerator.new name t2).create_files w ∧
    (PythonGenerator.new name t1).init_package_manager w
      = (PythonGenerator.new name t2).init_package_manager w ∧
    (PythonGenerator.new name t1).init_git w
      = (PythonGenerator.new name t2).init_git w ∧
    (PythonGenerator.new name t1).generate w
      = (PythonGenerator.new name t2).generate w :=
  ⟨rfl, rfl, rfl, rfl, rfl⟩

/-- Shared helper: a chain of four `?`-joined steps is the first-error
pipeline over the list of those four steps. -/
theorem seq4_eq_runPipeline (a b c d : Res) :
    seq a (fun _ => seq b (fun _ => seq c (fun _ => d)))
      = runPipeline [fun _ => a, fun _ => b, fun _ => c, fun _ => d] := by
  obtain ⟨ra, ea⟩ := a
  obtain ⟨rb, eb⟩ := b
  obtain ⟨rc, ec⟩ := c
  obtain ⟨rd, ed⟩ := d
  cases ra <;> cases rb <;> cases rc <;> cases rd <;>
    simp [seq, runPipeline]

/-- Shared helper: the chain succeeds iff all four steps do. -/
theorem seq4_ok_iff (a b c d : Res) :
    (seq a (fun _ => seq b (fun _ => seq c (fun _ => d)))).1 = Except.ok () ↔
      (a.1 = Except.ok () ∧ b.1 = Except.ok () ∧ c.1 = Except.ok ()
        ∧ d.1 = Except.ok ()) := by
  obtain ⟨ra, ea⟩ := a
  obtain ⟨rb, eb⟩ := b
  obtain ⟨rc, ec⟩ := c
  obtain ⟨rd, ed⟩ := d
  cases ra <;> cases rb <;> cases rc <;> cases rd <;>
    simp [seq]

/-- C4: for both generators, `generate` is exactly the first-error pipeline
over the four steps `create_directories`, `create_files`,
`init_package_manager`, `init_git` in that order (later steps never run
after a hard error), and it returns `Ok` iff all four steps do. -/
theorem generate_four_step_pipeline (name : String) (tool : Tool) (w : World) :
    ((PythonGenerator.new name tool).generate w
      = runPipeline [fun _ => (PythonGenerator.new name tool).create_directories w,
                     fun _ => (PythonGenerator.new name tool).create_files w,
                     fun _ => (PythonGenerator.new name tool).init_package_manager w,
                     fun _ => (PythonGenerator.new name tool).init_git w]) ∧
    (((PythonGenerator.new name tool).generate w).1 = Except.ok () ↔
      (((PythonGenerator.new name tool).create_directories w).1 = Except.ok () ∧
       ((PythonGenerator.new name tool).create_files w).1 = Except.ok () ∧
       ((PythonGenerator.new name tool).init_package_manager w).1 = Except.ok () ∧
       ((PythonGenerator.new name tool).init_git w).1 = Except.ok ())) ∧
    ((TypeScriptGenerator.new name tool).generate w
      = runPipeline [fun _ => (TypeScriptGenerator.new name tool).create_directories w,
                     fun _ => (TypeScriptGenerator.new name tool).create_files w,
                     fun _ => (TypeScriptGenerator.new name tool).init_package_manager w,
                     fun _ => (TypeScriptGenerator.new name tool).init_git w]) ∧
    (((TypeScriptGenerator.new name tool).generate w).1 = Except.ok () ↔
      (((TypeScriptGenerator.new name tool).create_directories w).1 = Except.ok () ∧
       ((TypeScriptGenerator.new name tool).create_files w).1 = Except.ok () ∧
       ((TypeScriptGenerator.new name tool).init_package_manager w).1 = Except.ok () ∧
       ((TypeScriptGenerator.new name tool).init_git w).1 = Except.ok ())) :=
  ⟨seq4_eq_runPipeline _ _ _ _, seq4_ok_iff _ _ _ _,
   seq4_eq_runPipeline _ _ _ _, seq4_ok_iff _ _ _ _⟩

/-- C7: the TypeScript package-manager step resolves the command from the
tool (pnpm, yarn, npm, with npm as the fallback for `Uv`) and spawns
exactly two processes — runtime dependencies first, then development
dependencies — with the claimed verbs and dev flags (yarn: `add` /
`add --dev`; pnpm: `install` / `install -D`; npm and the fallback:
`install` / `install --save-dev`). -/
theorem ts_init_package_manager_invocations (name : String) (tool : Tool) (w : World) :
    (((TypeScriptGenerator.new name tool).init_package_manager w).2.filter Event.isSpawn
      = [Event.spawn (tsPackageManagerCmd tool) (tsRuntimeDepsArgs tool) name,
         Event.spawn (tsPackageManagerCmd tool) (tsDevDepsArgs tool) name]) ∧
    (tsPackageManagerCmd Tool.Pnpm = "pnpm" ∧ tsPackageManagerCmd Tool.Yarn = "yarn" ∧
     tsPackageManagerCmd Tool.Npm = "npm" ∧ tsPackageManagerCmd Tool.Uv = "npm") ∧
    (tsRuntimeDepsArgs Tool.Yarn = ["add", "@modelcontextprotocol/sdk", "zod"] ∧
     tsRuntimeDepsArgs Tool.Pnpm = ["install", "@modelcontextprotocol/sdk", "zod"] ∧
     tsRuntimeDepsArgs Tool.Npm = ["install", "@modelcontextprotocol/sdk", "zod"] ∧
     tsRuntimeDepsArgs Tool.Uv = ["install", "@modelcontextprotocol/sdk", "zod"]) ∧
    (tsDevDepsArgs Tool.Yarn = ["add", "--dev", "@types/node", "typescript"] ∧
     tsDevDepsArgs Tool.Pnpm = ["install", "-D", "@types/node", "typescript"] ∧
     tsDevDepsArgs Tool.Npm = ["install", "--save-dev", "@types/node", "typescript"] ∧
     tsDevDepsArgs Tool.Uv = ["install", "--save-dev", "@types/node", "typescript"]) := by
  refine ⟨?_, ⟨rfl, rfl, rfl, rfl⟩, ⟨rfl, rfl, rfl, rfl⟩, ⟨rfl, rfl, rfl, rfl⟩⟩
  cases hr : w.run (tsPackageManagerCmd tool) (tsRuntimeDepsArgs tool) name <;>
    cases hd : w.run (tsPackageManagerCmd tool) (tsDevDepsArgs tool) name <;>
    simp [TypeScriptGenerator.init_package_manager, TypeScriptGenerator.new,
      hr, hd, Event.isSpawn, SpawnResult.is_ok]

/-- C2: `check_dependencies` returns `Ok` iff every required executable
resolves (git always; Python needs `python` or `python3`, plus `uv` when
the tool is `Uv`; TypeScript needs `node`, plus the executable matching the
selected manager, with `Uv` requiring no tool check); otherwise it returns
the full missing list ordered version control, runtime, tool. -/
theorem check_dependencies_ok_iff_and_ordered (env : Env) (language : Language)
    (tool : Tool) :
    (check_dependencies env language tool =
      (if (missingOrdered env language tool).isEmpty then Except.ok ()
       else Except.error (missingOrdered env language tool))) ∧
    (check_dependencies env language tool = Except.ok () ↔
      requiredOk env language tool) := by
  refine ⟨check_dependencies_eq_missingOrdered env language tool, ?_⟩
  rw [check_dependencies_eq_missingOrdered]
  cases language <;> cases tool <;>
    cases hg : env "git" <;>
    first
    | (cases hp : env "python" <;> cases hp3 : env "python3" <;> cases hu : env "uv" <;>
        (simp [missingOrdered, vcMissing, runtimeMissing, toolMissing, requiredOk,
          hg, hp, hp3, hu]; done))
    | (cases hn : env "node" <;> cases hpm : env "pnpm" <;> cases hy : env "yarn" <;>
        cases hnpm : env "npm" <;>
        (simp [missingOrdered, vcMissing, runtimeMissing, toolMissing, requiredOk,
          hg, hn, hpm, hy, hnpm]; done))

/-- C10: for every input, the error list of `check_dependencies` has at most
three entries, no two entries share a name, and every entry carries
install instructions. -/
theorem check_dependencies_entries_bounded (env : Env) (language : Language)
    (tool : Tool) :
    (errorList (check_dependencies env language tool)).length ≤ 3 ∧
    ((errorList (check_dependencies env language tool)).map Dependency.name).Nodup ∧
    ((errorList (check_dependencies env language tool)).all
      (fun d => d.install_instructions.isSome)) = true := by
  rw [check_dependencies_eq_missingOrdered]
  cases language <;> cases tool <;>
    cases hg : env "git" <;>
    first
    | (cases hp : env "python" <;> cases hp3 : env "python3" <;> cases hu : env "uv" <;>
        (simp [missingOrdered, vcMissing, runtimeMissing, toolMissing, errorList,
          hg, hp, hp3, hu]; done))
    | (cases hn : env "node" <;> cases hpm : env "pnpm" <;> cases hy : env "yarn" <;>
        cases hnpm : env "npm" <;>
        (simp [missingOrdered, vcMissing, runtimeMissing, toolMissing, errorList,
          hg, hn, hpm, hy, hnpm]; done))

/-- C8: the Python generator creates exactly the project root directory (its
directory step attempts no other directory), and on success its file step
writes exactly the five files pyproject.toml, requirements.txt, .gitignore,
server.py, README.md, all directly inside the project root. -/
theorem python_layout_flat_five_files (name : String) (tool : Tool) (w : World) :
    (((PythonGenerator.new name tool).create_directories w).2
      = [Event.createDir name]) ∧
    (((PythonGenerator.new name tool).create_files w).1 = Except.ok () →
      ((PythonGenerator.new name tool).create_files w).2.filter Event.isWriteFile
        = [Event.writeFile (name ++ "/pyproject.toml"),
           Event.writeFile (name ++ "/requirements.txt"),
           Event.writeFile (name ++ "/.gitignore"),
           Event.writeFile (name ++ "/server.py"),
           Event.writeFile (name ++ "/README.md")]) := by
  constructor
  · cases h : w.create_dir name <;>
      simp [PythonGenerator.create_directories, PythonGenerator.new, fsCreateDir, h]
  · intro hok
    cases h1 : w.write (name ++ "/pyproject.toml") <;>
      cases h2 : w.write (name ++ "/requirements.txt") <;>
      cases h3 : w.write (name ++ "/.gitignore") <;>
      cases h4 : w.write (name ++ "/server.py") <;>
      cases h5 : w.set_permissions (name ++ "/server.py") <;>
      cases h6 : w.write (name ++ "/README.md") <;>
      simp_all [PythonGenerator.create_files, PythonGenerator.new,
        PythonGenerator.create_pyproject_toml, PythonGenerator.create_requirements_txt,
        PythonGenerator.create_gitignore, PythonGenerator.create_server_file,
        PythonGenerator.create_readme, fsWrite, seq, Event.isWriteFile]

/-- Witness for C8 at the concrete project name `demo-py` in the all-success
world: the file step succeeds and writes exactly the five files. -/
theorem python_layout_flat_five_files_witness :
    ((PythonGenerator.new "demo-py" Tool.Uv).create_files allOkWorld).1 = Except.ok () ∧
    ((PythonGenerator.new "demo-py" Tool.Uv).create_files allOkWorld).2.filter
        Event.isWriteFile
      = [Event.writeFile "demo-py/pyproject.toml",
         Event.writeFile "demo-py/requirements.txt",
         Event.writeFile "demo-py/.gitignore",
         Event.writeFile "demo-py/server.py",
         Event.writeFile "demo-py/README.md"] := by
  have hok : ((PythonGenerator.new "demo-py" Tool.Uv).create_files allOkWorld).1
      = Except.ok () := by decide
  refine ⟨hok, ?_⟩
  have := (python_layout_flat_five_files "demo-py" Tool.Uv allOkWorld).2 hok
  simpa using this

/-- Counterexample to C1 as stated: in the Python variant a launch failure
of the package-manager invocation is NOT caught inside
`init_package_manager` — the step returns `Err` (so generation is
aborted), contradicting the claim that it still returns `Ok`. -/
theorem python_pkg_launch_failure_not_swallowed :
    ((PythonGenerator.new "demo" Tool.Uv).init_package_manager uvLaunchFailWorld).1
      ≠ Except.ok () ∧
    ((PythonGenerator.new "demo" Tool.Uv).generate uvLaunchFailWorld).1
      ≠ Except.ok () := by
  decide

/-- C1 (amended): the Python variant returns `Ok` from
`init_package_manager` exactly when the child was launched (a non-zero
exit is only warned about), while a launch failure becomes an `Err`; the
TypeScript variant always returns `Ok` (both launch failures are caught as
warnings), and its unqualified success message is printed iff both
invocations were launched successfully — exit statuses are never
inspected. -/
theorem init_package_manager_amended_behavior (name : String) (tool : Tool)
    (w : World) :
    (((PythonGenerator.new name tool).init_package_manager w).1 =
      (match w.run "uv" ["venv"] name with
       | SpawnResult.launchFailure e =>
         Except.error ("Failed to create virtual environment with uv venv: " ++ e)
       | SpawnResult.exited _ _ => Except.ok ())) ∧
    (((TypeScriptGenerator.new name tool).init_package_manager w).1
      = Except.ok ()) ∧
    (Event.printOut "✅ Dependencies installed successfully"
        ∈ ((TypeScriptGenerator.new name tool).init_package_manager w).2 ↔
      ((w.run (tsPackageManagerCmd tool) (tsRuntimeDepsArgs tool) name).is_ok
        && (w.run (tsPackageManagerCmd tool) (tsDevDepsArgs tool) name).is_ok)
        = true) := by
  refine ⟨?_, rfl, ?_⟩
  · cases h : w.run "uv" ["venv"] name with
    | launchFailure e =>
      simp [PythonGenerator.init_package_manager, PythonGenerator.new, h]
    | exited s t =>
      cases s <;>
        simp [PythonGenerator.init_package_manager, PythonGenerator.new, h]
  · cases tool <;>
      cases hr : w.run (tsPackageManagerCmd _) (tsRuntimeDepsArgs _) name <;>
      cases hd : w.run (tsPackageManagerCmd _) (tsDevDepsArgs _) name <;>
      simp_all [TypeScriptGenerator.init_package_manager, TypeScriptGenerator.new,
        tsPackageManagerCmd, tsRuntimeDepsArgs, tsDevDepsArgs, SpawnResult.is_ok]

/-- Counterexample to C3 as stated: a launch failure of the `git`
invocation is NOT swallowed — `init_git` returns `Err`, the error
propagates out of `generate`, and the orchestrated run exits with code 1
instead of leaving the exit code unchanged. -/
theorem git_launch_failure_propagates :
    ((PythonGenerator.new "demo" Tool.Uv).init_git gitLaunchFailWorld).1
      ≠ Except.ok () ∧
    ((PythonGenerator.new "demo" Tool.Uv).generate gitLaunchFailWorld).1
      ≠ Except.ok () ∧
    (main ⟨"demo", Language.Python, none⟩ (fun _ => true) false
      gitLaunchFailWorld).1 = 1 := by
  decide

/-- C3 (amended): in both generators `init_git` ignores the exit status of
the `git` process (a non-zero exit is silently accepted and the step
returns `Ok`), but a launch failure of the invocation is returned as an
`Err`, which `generate` propagates. -/
theorem init_git_amended_behavior (name : String) (tool : Tool) (w : World) :
    (((PythonGenerator.new name tool).init_git w).1 =
      (match w.run "git" ["init"] name with
       | SpawnResult.launchFailure e =>
         Except.error ("Failed to initialize git repository: " ++ e)
       | SpawnResult.exited _ _ => Except.ok ())) ∧
    (((TypeScriptGenerator.new name tool).init_git w).1 =
      (match w.run "git" ["init"] name with
       | SpawnResult.launchFailure e =>
         Except.error ("Failed to initialize git repository: " ++ e)
       | SpawnResult.exited _ _ => Except.ok ())) := by
  constructor
  · cases h : w.run "git" ["init"] name <;>
      simp [PythonGenerator.init_git, PythonGenerator.new, h]
  · cases h : w.run "git" ["init"] name <;>
      simp [TypeScriptGenerator.init_git, TypeScriptGenerator.new, h]

/-- The missing-dependency report is console output only. -/
theorem depsErrorEvents_console_only (deps : List Dependency) :
    (depsErrorEvents deps).filter Event.isSideEffect = [] := by
  induction deps with
  | nil => rfl
  | cons d ds ih =>
    cases d with
    | mk n i =>
      cases i <;>
        simpa [depsErrorEvents, Event.isSideEffect] using ih

/-- The success report is console output only. -/
theorem mainSuccessEvents_console_only (language : Language) (tool : Tool)
    (name : String) :
    (mainSuccessEvents language tool name).filter Event.isSideEffect = [] := by
  cases language <;> cases tool <;>
    simp [mainSuccessEvents, Event.isSideEffect]

/-- C5: `main` exits 1 exactly when dependencies are missing, the target
path already exists, or the generator run returns a hard error; it exits 0
otherwise (full success); and no filesystem or process side effect happens
unless both preflight checks pass — when they do, the side effects are
exactly those of the dispatched generator run. -/
theorem main_exit_code_and_preflight (cli : Cli) (env : Env) (path_exists : Bool)
    (w : World) :
    ((main cli env path_exists w).1 = 0 ∨ (main cli env path_exists w).1 = 1) ∧
    ((main cli env path_exists w).1 = 1 ↔
      (check_dependencies env cli.language (resolvedTool cli) ≠ Except.ok () ∨
       path_exists = true ∨
       (generatorResult cli (resolvedTool cli) w).1 ≠ Except.ok ())) ∧
    ((main cli env path_exists w).2.filter Event.isSideEffect =
      (if check_dependencies env cli.language (resolvedTool cli) = Except.ok ()
          ∧ path_exists = false then
        (generatorResult cli (resolvedTool cli) w).2.filter Event.isSideEffect
       else [])) := by
  obtain ⟨name, language, otool⟩ := cli
  cases hc : check_dependencies env language (resolvedTool ⟨name, language, otool⟩) with
  | error ds =>
    cases path_exists <;>
      simp [main, resolvedTool, hc, depsErrorEvents_console_only,
        Event.isSideEffect] at hc ⊢ <;>
      simp [hc, depsErrorEvents_console_only]
  | ok u =>
    cases u
    cases path_exists
    · cases hg : generatorResult ⟨name, language, otool⟩
        (resolvedTool ⟨name, language, otool⟩) w with
      | mk r es =>
        cases language <;> cases r <;>
          simp_all [main, resolvedTool, generatorResult,
            mainSuccessEvents_console_only, Event.isSideEffect]
    · cases language <;>
        simp_all [main, resolvedTool, Event.isSideEffect]

end Mcpc
